import Mathlib

/-!
Shallow embedding of the rs_tracing crate (src/src/lib.rs), a Chrome
trace-event-format tracing library.  Pure data (event records, their JSON
serialization) is translated to Lean functions; the process-global mutable
state (activation flag, sink handle, clock/pid/tid sources) is made an
explicit state record `Sys` threaded through the operations; the fallible
file I/O used by `init_trace_to_file`, `trace` and `close_trace_file_fn`
is modelled with `Except`-returning primitives over an explicit world with
fault-injection flags, `unwrap` becoming a `RustOutcome.panicked` result.
-/

namespace RsTracing

/-- Activation state of tracing, mirroring `pub enum TraceState` in the source. -/
inductive TraceState
  | InActive
  | Active
deriving DecidableEq

/-- Event kinds, mirroring `pub enum EventType` in the source. -/
inductive EventType
  | DurationBegin
  | DurationEnd
  | Complete
deriving DecidableEq

/-- Model of `serde_json::Value`, the type of the optional `args` payload. -/
inductive JsonValue
  | null
  | bool (b : Bool)
  | num (n : Nat)
  | str (s : String)
  | arr (elements : List JsonValue)
  | obj (members : List (String × JsonValue))

/-- Model of `pub struct TraceEvent` from the source: `name`, `ph`, `ts` (u64
microseconds), `pid` (u32), `tid` (u64), optional `dur`, optional `args`. -/
structure TraceEvent where
  name : String
  ph : EventType
  ts : Nat
  pid : Nat
  tid : Nat
  dur : Option Nat
  args : Option JsonValue

/-- Hexadecimal digit used by serde_json's `\u00XX` escapes for control characters. -/
def hexDigit (n : Nat) : Char :=
  if n < 10 then Char.ofNat (48 + n) else Char.ofNat (87 + n)

/-- Four lowercase hex digits, as serde_json writes in a `\uXXXX` escape. -/
def hex4 (n : Nat) : String :=
  String.mk [hexDigit (n / 4096 % 16), hexDigit (n / 256 % 16),
             hexDigit (n / 16 % 16), hexDigit (n % 16)]

/-- Escaping of one character inside a JSON string, following serde_json:
quote and backslash are escaped, the named control escapes are used for
backspace, tab, newline, form feed and carriage return, any other control
character gets a `\uXXXX` escape, and everything else is passed through. -/
def escapeChar (c : Char) : String :=
  if c = '"' then "\\\""
  else if c = '\\' then "\\\\"
  else if c.toNat = 8 then "\\b"
  else if c = '\t' then "\\t"
  else if c = '\n' then "\\n"
  else if c.toNat = 12 then "\\f"
  else if c = '\r' then "\\r"
  else if c.toNat < 32 then "\\u" ++ hex4 c.toNat
  else String.singleton c

/-- Serialization of a Rust `&str` as a JSON string (serde_json compact form). -/
def jsonString (s : String) : String :=
  "\"" ++ String.join (s.toList.map escapeChar) ++ "\""

mutual

/-- Compact rendering of a `serde_json::Value`, as `serde_json::to_writer`
produces it. -/
def renderJson : JsonValue → String
  | .null => "null"
  | .bool true => "true"
  | .bool false => "false"
  | .num n => toString n
  | .str s => jsonString s
  | .arr elements => "[" ++ renderJsonList elements ++ "]"
  | .obj members => "\x7b" ++ renderJsonMembers members ++ "\x7d"

/-- Comma-separated rendering of JSON array elements. -/
def renderJsonList : List JsonValue → String
  | [] => ""
  | [v] => renderJson v
  | v :: rest => renderJson v ++ "," ++ renderJsonList rest

/-- Comma-separated rendering of JSON object members. -/
def renderJsonMembers : List (String × JsonValue) → String
  | [] => ""
  | [(k, v)] => jsonString k ++ ":" ++ renderJson v
  | (k, v) :: rest => jsonString k ++ ":" ++ renderJson v ++ "," ++ renderJsonMembers rest

end

/-- Serialization of `EventType`, mirroring `impl Serialize for EventType`:
`serialize_unit_variant` with variant names "B", "E", "X", which serde_json
writes as a JSON string. -/
def serializeEventType : EventType → String
  | .DurationBegin => jsonString "B"
  | .DurationEnd => jsonString "E"
  | .Complete => jsonString "X"

/-- Portion of the serialized `TraceEvent` before the `ph` field's value:
the opening brace, the `name` field, and the `ph` key. -/
def serializedBeforePh (e : TraceEvent) : String :=
  "\x7b\"name\":" ++ jsonString e.name ++ ",\"ph\":"

/-- Portion of the serialized `TraceEvent` after the `ph` field's value:
`ts`, `pid`, `tid`, then `dur` only when present, then `args` only when
present, then the closing brace. -/
def serializedAfterPh (e : TraceEvent) : String :=
  ",\"ts\":" ++ toString e.ts
    ++ ",\"pid\":" ++ toString e.pid
    ++ ",\"tid\":" ++ toString e.tid
    ++ (match e.dur with
        | some d => ",\"dur\":" ++ toString d
        | none => "")
    ++ (match e.args with
        | some a => ",\"args\":" ++ renderJson a
        | none => "")
    ++ "\x7d"

/-- Serialization of a `TraceEvent`, mirroring `impl Serialize for TraceEvent`:
fields in the order name, ph, ts, pid, tid, then `dur` and `args` only when
present, written in serde_json's compact struct form. -/
def serializeTraceEvent (e : TraceEvent) : String :=
  serializedBeforePh e ++ serializeEventType e.ph ++ serializedAfterPh e

/-- Explicit model of the process-global state the source keeps in mutable
statics (`TRACE_STATE`, `TRACER`) plus the external clock and id sources.
`tracer` is the file sink's buffered contents (`none` when no trace file is
open), `stdout` records everything the library writes to standard output
(the source never writes there, so it only appears in theorem statements),
`clock` gives the nanosecond reading of `time::precise_time_ns` at each call
index and `clockCalls` counts how often the clock was read; `pidCalls` and
`tidCalls` likewise count the `process::id()` and thread-id captures.
`emitted` is a ghost log of every record handed to the sink via `trace`. -/
structure Sys where
  trace_state : TraceState
  tracer : Option String
  stdout : String
  clock : Nat → Nat
  clockCalls : Nat
  pidVal : Nat
  pidCalls : Nat
  tidVal : Nat
  tidCalls : Nat
  emitted : List TraceEvent

/-- Model of `precise_time_microsec`: reads `time::precise_time_ns()` (the
next clock value) and divides by 1000. -/
def precise_time_microsec (s : Sys) : Nat × Sys :=
  (s.clock s.clockCalls / 1000, { s with clockCalls := s.clockCalls + 1 })

/-- Model of `process::id()` with a ghost capture counter. -/
def process_id (s : Sys) : Nat × Sys :=
  (s.pidVal, { s with pidCalls := s.pidCalls + 1 })

/-- Model of the `transmute::<ThreadId, u64>(thread::current().id())` capture
with a ghost capture counter. -/
def thread_id (s : Sys) : Nat × Sys :=
  (s.tidVal, { s with tidCalls := s.tidCalls + 1 })

/-- Model of `set_trace_state`. -/
def set_trace_state (state : TraceState) (s : Sys) : Sys :=
  { s with trace_state := state }

/-- Model of `is_trace_active`: true exactly when the global state is `Active`. -/
def is_trace_active (s : Sys) : Bool :=
  match s.trace_state with
  | .Active => true
  | .InActive => false

/-- Model of `trace`: the record is handed to the sink (logged in `emitted`);
when a trace file is open, its serialization followed by ",\n" is appended to
the file buffer, otherwise nothing is written anywhere.  This is the
success-path model; `trace_fallible` below models the same function's
`unwrap` behaviour under I/O failure. -/
def trace (event : TraceEvent) (s : Sys) : Sys :=
  let s1 := { s with emitted := s.emitted ++ [event] }
  match s1.tracer with
  | some buf => { s1 with tracer := some (buf ++ serializeTraceEvent event ++ ",\n") }
  | none => s1

/-- Model of `TraceEvent::new`: captures timestamp, process id and thread id
in that order; `dur` starts absent. -/
def TraceEvent.new (name : String) (event_type : EventType) (args : Option JsonValue)
    (s : Sys) : TraceEvent × Sys :=
  let (ts, s1) := precise_time_microsec s
  let (pid, s2) := process_id s1
  let (tid, s3) := thread_id s2
  ({ name := name, ph := event_type, ts := ts, pid := pid, tid := tid,
     dur := none, args := args }, s3)

/-- Model of `pub struct EventGuard`. -/
structure EventGuard where
  event : TraceEvent

/-- Model of `EventGuard::new`: wraps a fresh `Complete` event. -/
def EventGuard.new (name : String) (args : Option JsonValue) (s : Sys) :
    EventGuard × Sys :=
  let (e, s1) := TraceEvent.new name .Complete args s
  ({ event := e }, s1)

/-- Model of `impl Drop for EventGuard`: stamps
`dur = precise_time_microsec() - ts` and emits the record, unconditionally. -/
def EventGuard.drop (g : EventGuard) (s : Sys) : Sys :=
  let (now, s1) := precise_time_microsec s
  trace { g.event with dur := some (now - g.event.ts) } s1

/-- Model of the `trace_scoped_internal!` macro body: when tracing is active
a guard is created, otherwise no work at all happens (`None` guard). -/
def trace_scoped_internal (name : String) (args : Option JsonValue) (s : Sys) :
    Option EventGuard × Sys :=
  if is_trace_active s then
    let (g, s1) := EventGuard.new name args s
    (some g, s1)
  else
    (none, s)

/-- Model of the `trace_expr_internal!` macro body.  The wrapped expression is
modelled as a state transformer `expr : σ → σ × α` over caller state `σ`, so
"evaluated exactly once" is visible as the effect on `σ`.  When active: build
a `Complete` event, evaluate the expression, stamp the duration, emit, and
return the result; when inactive: just evaluate the expression. -/
def trace_expr_internal {σ α : Type} (name : String) (args : Option JsonValue)
    (expr : σ → σ × α) (st : σ) (s : Sys) : α × σ × Sys :=
  if is_trace_active s then
    let (event, s1) := TraceEvent.new name .Complete args s
    let (st1, result) := expr st
    let (now, s2) := precise_time_microsec s1
    let s3 := trace { event with dur := some (now - event.ts) } s2
    (result, st1, s3)
  else
    let (st1, result) := expr st
    (result, st1, s)

/-- Model of the `trace_expr_internal!` macro when the `rs_tracing` feature is
disabled: it expands to the bare expression. -/
def trace_expr_internal_disabled {σ α : Type} (expr : σ → σ × α) (st : σ) : σ × α :=
  expr st

/-- Model of the `trace_duration_internal!` macro body (used by `trace_begin!`
with `DurationBegin` and `trace_end!` with `DurationEnd`): when active, build
an event (with `dur` still absent) and emit it immediately. -/
def trace_duration_internal (name : String) (event_type : EventType)
    (args : Option JsonValue) (s : Sys) : Sys :=
  if is_trace_active s then
    let (event, s1) := TraceEvent.new name event_type args s
    trace event s1
  else
    s

/-- Scenario used for the runtime-toggling claim: open a scoped guard, then
deactivate tracing, then leave the scope (dropping the guard if one was
created).  This mirrors `trace_scoped!` followed by `trace_deactivate!`
inside the scope. -/
def scoped_then_deactivate (name : String) (args : Option JsonValue) (s : Sys) : Sys :=
  match trace_scoped_internal name args s with
  | (some g, s1) => EventGuard.drop g (set_trace_state .InActive s1)
  | (none, s1) => set_trace_state .InActive s1

/-- Errors of the fallible filesystem and writer primitives, identified by
the failing step. -/
inductive IoError
  | dirCreateFailed
  | fileCreateFailed
  | writeFailed
  | flushFailed
deriving DecidableEq

/-- Outcome of running a piece of Rust code that may `panic!` (here: via
`Result::unwrap` on a failed I/O operation). -/
inductive RustOutcome (α : Type)
  | ok (a : α)
  | panicked
deriving DecidableEq

/-- Buffered writer over the opened trace file, with fault-injection flags:
when `writeFails` is set every write returns an error, and when `flushFails`
is set flushing returns an error.  Models `BufWriter<File>`. -/
structure FWriter where
  buf : String
  writeFails : Bool
  flushFails : Bool
deriving DecidableEq

/-- Model of `Write::write_all` on the buffered trace writer. -/
def FWriter.write_all (w : FWriter) (bytes : String) : Except IoError FWriter :=
  if w.writeFails then .error .writeFailed
  else .ok { w with buf := w.buf ++ bytes }

/-- Model of `Write::flush` on the buffered trace writer. -/
def FWriter.flush (w : FWriter) : Except IoError FWriter :=
  if w.flushFails then .error .flushFailed else .ok w

/-- Model of `serde_json::to_writer(&mut *file, event)`: writes the record's
compact JSON encoding, failing exactly when the underlying writer fails. -/
def serde_json_to_writer (w : FWriter) (event : TraceEvent) : Except IoError FWriter :=
  w.write_all (serializeTraceEvent event)

/-- Model of `trace` at the I/O level, with the source's two `unwrap` calls
made explicit: when a trace file is open, a failed serialize-write or a
failed ",\n" write panics; with no file open nothing happens. -/
def trace_fallible (tracer : Option FWriter) (event : TraceEvent) :
    RustOutcome (Option FWriter) :=
  match tracer with
  | none => .ok none
  | some w =>
    match serde_json_to_writer w event with
    | .error _ => .panicked
    | .ok w1 =>
      match w1.write_all ",\n" with
      | .error _ => .panicked
      | .ok w2 => .ok (some w2)

/-- Model of `close_trace_file_fn`, with the source's `unwrap` on `flush`
made explicit: when a trace file is open it is flushed (a failure panics)
and the global sink handle is cleared. -/
def close_trace_file_fn (tracer : Option FWriter) : RustOutcome (Option FWriter) :=
  match tracer with
  | none => .ok none
  | some w =>
    match w.flush with
    | .error _ => .panicked
    | .ok _ => .ok none

/-- Filesystem paths are lists of components; `dirs` is the set of existing
directories and `files` maps each existing file path to its contents. -/
structure Fs where
  dirs : List (List String)
  files : List (List String × String)
deriving DecidableEq

/-- World state for `init_trace_to_file`: the filesystem, fault-injection
flags for its three fallible steps (recursive directory creation, file
creation, writing the leading bracket), and the global sink handle — here
the installed buffered writer carries the path of the file it writes to. -/
structure World where
  fs : Fs
  dirFails : Bool
  fileFails : Bool
  writeFails : Bool
  tracerPath : Option (List String)
  tracerBuf : Option String
deriving DecidableEq

/-- Nonempty prefixes of a path: the chain of directories that recursive
directory creation brings into existence. -/
def pathInits : List String → List (List String)
  | [] => []
  | c :: rest => [c] :: (pathInits rest).map (fun p => c :: p)

/-- Model of `DirBuilder::new().recursive(true).create(dir)`: on success every
component prefix of the path becomes an existing directory. -/
def createDirRecursive (w : World) (dir : List String) : Except IoError Unit × World :=
  if w.dirFails then (.error .dirCreateFailed, w)
  else (.ok (), { w with fs := { w.fs with dirs := pathInits dir ++ w.fs.dirs } })

/-- Model of `File::create(path)`: on success the file exists and is empty
(created or truncated). -/
def createFile (w : World) (path : List String) : Except IoError Unit × World :=
  if w.fileFails then (.error .fileCreateFailed, w)
  else (.ok (), { w with fs :=
    { w.fs with files := (path, "") :: w.fs.files.filter (fun kv => kv.1 != path) } })

/-- Model of Rust's `Result::and`: keeps the first error, otherwise the second
result.  Both arguments are already-evaluated results, as in the source where
`File::create` runs eagerly as the argument of `.and(..)`. -/
def resultAnd {ε α β : Type} : Except ε α → Except ε β → Except ε β
  | .error e, _ => .error e
  | .ok _, r => r

/-- File name `<pid>.trace` built by `push(process::id().to_string())` and
`set_extension("trace")` (a decimal pid has no extension, so `.trace` is
appended). -/
def traceFileName (pid : Nat) : String :=
  toString pid ++ ".trace"

/-- Model of `init_trace_to_file(dir)`: builds `<dir>/<pid>.trace`, runs
recursive directory creation and file creation (both are evaluated, their
results combined with `Result::and`), propagates the first error with `?`,
then wraps the file in a buffered writer, writes the leading "[" (again `?`
on failure), and only then installs the writer as the global sink. -/
def init_trace_to_file (pid : Nat) (dir : List String) (w : World) :
    Except IoError Unit × World :=
  let file_path := dir ++ [traceFileName pid]
  let (rDir, w1) := createDirRecursive w dir
  let (rFile, w2) := createFile w1 file_path
  match resultAnd rDir rFile with
  | .error e => (.error e, w2)
  | .ok () =>
    if w2.writeFails then (.error .writeFailed, w2)
    else (.ok (), { w2 with tracerPath := some file_path, tracerBuf := some "[" })

/-- Monotonicity of the modelled clock stream: later reads of
`time::precise_time_ns` are at least as large as earlier ones. -/
def ClockMono (s : Sys) : Prop :=
  ∀ i j, i ≤ j → s.clock i ≤ s.clock j

/-- Invariant relating `dur` and `ph` on a record: the duration is present
exactly when the record is a `Complete` event. -/
def durPhaseInv (r : TraceEvent) : Prop :=
  r.dur ≠ none ↔ r.ph = EventType.Complete

/-- Concrete active system with no trace file open, used to instantiate
universally quantified theorems. -/
def sysActiveNoFile : Sys :=
  { trace_state := .Active, tracer := none, stdout := "",
    clock := fun i => 1000 * i, clockCalls := 0,
    pidVal := 42, pidCalls := 0, tidVal := 7, tidCalls := 0, emitted := [] }

/-- Concrete active system with an open trace file whose buffer holds the
leading bracket. -/
def sysActiveFile : Sys :=
  { sysActiveNoFile with tracer := some "[" }

/-- Concrete inactive system. -/
def sysInactive : Sys :=
  { sysActiveNoFile with trace_state := .InActive }

/-- Records handed to `trace` are appended to the ghost emission log whether
or not a trace file is open. -/
theorem trace_emitted (event : TraceEvent) (s : Sys) :
    (trace event s).emitted = s.emitted ++ [event] := by
  unfold trace
  cases h : s.tracer <;> simp [h]

/-- Nothing `trace` does touches standard output. -/
theorem trace_stdout (event : TraceEvent) (s : Sys) :
    (trace event s).stdout = s.stdout := by
  unfold trace
  cases h : s.tracer <;> simp [h]

/-- With no trace file open, `trace` leaves the sink handle absent. -/
theorem trace_no_file (event : TraceEvent) (s : Sys) (h : s.tracer = none) :
    (trace event s).tracer = none := by
  unfold trace
  simp [h]

/-- With a trace file open, `trace` appends the serialized record and ",\n". -/
theorem trace_with_file (event : TraceEvent) (s : Sys) (buf : String)
    (h : s.tracer = some buf) :
    (trace event s).tracer = some (buf ++ serializeTraceEvent event ++ ",\n") := by
  unfold trace
  simp [h]

/-- C1: serializing an event record with name "op", phase Complete, ts 1000,
pid 42, tid 7, dur 250 and no args yields exactly the byte string
`\x7b"name":"op","ph":"X","ts":1000,"pid":42,"tid":7,"dur":250\x7d`, with the
fields in the order name, ph, ts, pid, tid, dur and no args key emitted. -/
theorem c1_fixed_record_serialization :
    serializeTraceEvent
      { name := "op", ph := .Complete, ts := 1000, pid := 42, tid := 7,
        dur := some 250, args := none } =
      "\x7b\"name\":\"op\",\"ph\":\"X\",\"ts\":1000,\"pid\":42,\"tid\":7,\"dur\":250\x7d" := by
  decide

/-- C3: the three event kinds serialize in the ph field to exactly the
single-character JSON strings "B", "E" and "X" respectively, and every
serialized record renders its ph field through exactly this mapping. -/
theorem c3_event_type_codes :
    serializeEventType .DurationBegin = "\"B\"" ∧
    serializeEventType .DurationEnd = "\"E\"" ∧
    serializeEventType .Complete = "\"X\"" ∧
    ∀ e : TraceEvent,
      serializeTraceEvent e =
        serializedBeforePh e ++ serializeEventType e.ph ++ serializedAfterPh e := by
  refine ⟨by decide, by decide, by decide, fun e => rfl⟩

/-- C4: while the activation gate reads inactive, the scoped, expression and
begin/end operations leave the whole system state untouched — no bytes reach
any sink, no clock, process-id or thread-id capture happens, nothing is
handed to the sink, and the scoped operation produces no guard. -/
theorem c4_inactive_is_noop {σ α : Type} (name : String) (args : Option JsonValue)
    (event_type : EventType) (expr : σ → σ × α) (st : σ) (s : Sys)
    (h : is_trace_active s = false) :
    trace_scoped_internal name args s = (none, s) ∧
    (trace_expr_internal name args expr st s).2.2 = s ∧
    trace_duration_internal name event_type args s = s := by
  refine ⟨?_, ?_, ?_⟩
  · simp [trace_scoped_internal, h]
  · rcases he : expr st with ⟨st1, result⟩
    simp [trace_expr_internal, h, he]
  · simp [trace_duration_internal, h]

/-- Closed instance of `c4_inactive_is_noop` at a concrete inactive system. -/
theorem c4_inactive_is_noop_witness :
    trace_scoped_internal "op" none sysInactive = (none, sysInactive) ∧
    (trace_expr_internal "op" none (fun n : Nat => (n + 1, n)) 5 sysInactive).2.2 =
      sysInactive ∧
    trace_duration_internal "op" EventType.DurationBegin none sysInactive = sysInactive :=
  c4_inactive_is_noop "op" none EventType.DurationBegin (fun n : Nat => (n + 1, n)) 5
    sysInactive (by decide)

/-- C5: the expression wrapper evaluates the wrapped expression exactly once
and returns its value unchanged — the returned value and final caller state
are those of a single evaluation — whether the gate is active or inactive,
and likewise when the crate feature is disabled; when inactive the tracing
state is completely untouched. -/
theorem c5_expr_evaluated_once {σ α : Type} (name : String) (args : Option JsonValue)
    (expr : σ → σ × α) (st : σ) (s : Sys) :
    (trace_expr_internal name args expr st s).1 = (expr st).2 ∧
    (trace_expr_internal name args expr st s).2.1 = (expr st).1 ∧
    trace_expr_internal_disabled expr st = expr st ∧
    (is_trace_active s = false → (trace_expr_internal name args expr st s).2.2 = s) := by
  rcases he : expr st with ⟨st1, result⟩
  refine ⟨?_, ?_, by simp [trace_expr_internal_disabled, he], ?_⟩
  · by_cases h : is_trace_active s <;> simp [trace_expr_internal, h, he]
  · by_cases h : is_trace_active s <;> simp [trace_expr_internal, h, he]
  · intro h
    simp [trace_expr_internal, h, he]

/-- Closed instance of `c5_expr_evaluated_once` on a concrete expression and
an inactive system, with the inactivity hypothesis discharged. -/
theorem c5_expr_evaluated_once_witness :
    (trace_expr_internal "op" none (fun n : Nat => (n + 1, n * 2)) 5 sysInactive).1 =
      ((fun n : Nat => (n + 1, n * 2)) 5).2 ∧
    (trace_expr_internal "op" none (fun n : Nat => (n + 1, n * 2)) 5 sysInactive).2.1 =
      ((fun n : Nat => (n + 1, n * 2)) 5).1 ∧
    trace_expr_internal_disabled (fun n : Nat => (n + 1, n * 2)) 5 =
      (fun n : Nat => (n + 1, n * 2)) 5 ∧
    (trace_expr_internal "op" none (fun n : Nat => (n + 1, n * 2)) 5 sysInactive).2.2 =
      sysInactive :=
  ⟨(c5_expr_evaluated_once "op" none (fun n : Nat => (n + 1, n * 2)) 5 sysInactive).1,
   (c5_expr_evaluated_once "op" none (fun n : Nat => (n + 1, n * 2)) 5 sysInactive).2.1,
   (c5_expr_evaluated_once "op" none (fun n : Nat => (n + 1, n * 2)) 5 sysInactive).2.2.1,
   (c5_expr_evaluated_once "op" none (fun n : Nat => (n + 1, n * 2)) 5 sysInactive).2.2.2
     (by decide)⟩

/-- C2: every record handed to the sink has its duration present exactly when
its phase is Complete, and Complete records produced by the scope guard or
the expression wrapper carry `dur = finalization capture time - ts`, an exact
unsigned subtraction.  Part one: guard-created records are Complete with no
duration yet; part two: dropping such a guard hands the sink that record
with `dur` stamped to the capture-time difference, exactly; part three: the
expression wrapper hands the sink one Complete record with an exact
duration; part four: begin/end records are handed over with no duration and
a non-Complete phase. -/
theorem c2_duration_invariant :
    (∀ (name : String) (args : Option JsonValue) (s : Sys),
      (EventGuard.new name args s).1.event.ph = EventType.Complete ∧
      (EventGuard.new name args s).1.event.dur = none) ∧
    (∀ (name : String) (args : Option JsonValue) (s0 s : Sys),
      (EventGuard.new name args s0).1.event.ts ≤ (precise_time_microsec s).1 →
        (EventGuard.drop (EventGuard.new name args s0).1 s).emitted =
          s.emitted ++
            [{ (EventGuard.new name args s0).1.event with
                dur := some ((precise_time_microsec s).1 -
                  (EventGuard.new name args s0).1.event.ts) }] ∧
        durPhaseInv { (EventGuard.new name args s0).1.event with
            dur := some ((precise_time_microsec s).1 -
              (EventGuard.new name args s0).1.event.ts) } ∧
        (EventGuard.new name args s0).1.event.ts +
            ((precise_time_microsec s).1 - (EventGuard.new name args s0).1.event.ts) =
          (precise_time_microsec s).1) ∧
    (∀ (σ α : Type) (name : String) (args : Option JsonValue) (expr : σ → σ × α)
        (st : σ) (s : Sys),
      is_trace_active s = true → ClockMono s →
        ∃ r endTime,
          (trace_expr_internal name args expr st s).2.2.emitted = s.emitted ++ [r] ∧
          r.ph = EventType.Complete ∧ r.dur = some (endTime - r.ts) ∧
          r.ts ≤ endTime ∧ r.ts + (endTime - r.ts) = endTime ∧ durPhaseInv r) ∧
    (∀ (name : String) (args : Option JsonValue) (s : Sys) (event_type : EventType),
      is_trace_active s = true →
      event_type = EventType.DurationBegin ∨ event_type = EventType.DurationEnd →
        ∃ r, (trace_duration_internal name event_type args s).emitted = s.emitted ++ [r] ∧
          r.dur = none ∧ r.ph = event_type ∧ durPhaseInv r) := by
  refine ⟨fun name args s => ⟨rfl, rfl⟩, ?_, ?_, ?_⟩
  · intro name args s0 s hle
    refine ⟨?_, ?_, Nat.add_sub_cancel' hle⟩
    · simp [EventGuard.drop, trace_emitted, precise_time_microsec]
    · simp [durPhaseInv, EventGuard.new, TraceEvent.new, precise_time_microsec,
        process_id, thread_id]
  · intro σ α name args expr st s hact hmono
    rcases he : expr st with ⟨st1, result⟩
    refine ⟨{ name := name, ph := .Complete, ts := s.clock s.clockCalls / 1000,
              pid := s.pidVal, tid := s.tidVal,
              dur := some (s.clock (s.clockCalls + 1) / 1000 -
                s.clock s.clockCalls / 1000), args := args },
            s.clock (s.clockCalls + 1) / 1000, ?_, rfl, rfl, ?_, ?_, ?_⟩
    · simp [trace_expr_internal, hact, he, TraceEvent.new, precise_time_microsec,
        process_id, thread_id, trace_emitted]
    · exact Nat.div_le_div_right (hmono s.clockCalls (s.clockCalls + 1) (Nat.le_succ _))
    · exact Nat.add_sub_cancel'
        (Nat.div_le_div_right (hmono s.clockCalls (s.clockCalls + 1) (Nat.le_succ _)))
    · simp [durPhaseInv]
  · intro name args s event_type hact ht
    refine ⟨{ name := name, ph := event_type, ts := s.clock s.clockCalls / 1000,
              pid := s.pidVal, tid := s.tidVal, dur := none, args := args },
            ?_, rfl, rfl, ?_⟩
    · simp [trace_duration_internal, hact, TraceEvent.new, precise_time_microsec,
        process_id, thread_id, trace_emitted]
    · rcases ht with rfl | rfl <;> simp [durPhaseInv]

/-- Closed instance of `c2_duration_invariant`: each of its four parts applied
at concrete inputs, with every hypothesis discharged there. -/
theorem c2_duration_invariant_witness :
    ((EventGuard.new "op" none sysActiveFile).1.event.ph = EventType.Complete ∧
     (EventGuard.new "op" none sysActiveFile).1.event.dur = none) ∧
    ((EventGuard.drop (EventGuard.new "op" none sysActiveFile).1
        (EventGuard.new "op" none sysActiveFile).2).emitted =
      (EventGuard.new "op" none sysActiveFile).2.emitted ++
        [{ (EventGuard.new "op" none sysActiveFile).1.event with
            dur := some ((precise_time_microsec (EventGuard.new "op" none sysActiveFile).2).1 -
              (EventGuard.new "op" none sysActiveFile).1.event.ts) }] ∧
     durPhaseInv { (EventGuard.new "op" none sysActiveFile).1.event with
        dur := some ((precise_time_microsec (EventGuard.new "op" none sysActiveFile).2).1 -
          (EventGuard.new "op" none sysActiveFile).1.event.ts) } ∧
     (EventGuard.new "op" none sysActiveFile).1.event.ts +
        ((precise_time_microsec (EventGuard.new "op" none sysActiveFile).2).1 -
          (EventGuard.new "op" none sysActiveFile).1.event.ts) =
      (precise_time_microsec (EventGuard.new "op" none sysActiveFile).2).1) ∧
    (∃ r endTime,
      (trace_expr_internal "op" none (fun n : Nat => (n + 1, n * 2)) 5
          sysActiveFile).2.2.emitted = sysActiveFile.emitted ++ [r] ∧
      r.ph = EventType.Complete ∧ r.dur = some (endTime - r.ts) ∧
      r.ts ≤ endTime ∧ r.ts + (endTime - r.ts) = endTime ∧ durPhaseInv r) ∧
    (∃ r, (trace_duration_internal "op" EventType.DurationBegin none
        sysActiveFile).emitted = sysActiveFile.emitted ++ [r] ∧
      r.dur = none ∧ r.ph = EventType.DurationBegin ∧ durPhaseInv r) :=
  ⟨c2_duration_invariant.1 "op" none sysActiveFile,
   c2_duration_invariant.2.1 "op" none sysActiveFile
     (EventGuard.new "op" none sysActiveFile).2 (by decide),
   c2_duration_invariant.2.2.1 Nat Nat "op" none (fun n : Nat => (n + 1, n * 2)) 5
     sysActiveFile (by decide)
     (fun i j hij => by
       simp only [sysActiveFile, sysActiveNoFile]
       exact Nat.mul_le_mul_left 1000 hij),
   c2_duration_invariant.2.2.2 "op" none sysActiveFile EventType.DurationBegin
     (by decide) (Or.inl rfl)⟩

/-- C9: a scoped-interval guard created while the gate was active still
finalizes and emits its record at scope exit even when the gate is set
inactive in between: the emitted record is Complete with a stamped duration
and, when a trace file is open, its bytes are appended; a scoped guard
requested after the deactivation, in contrast, is not created at all. -/
theorem c9_guard_survives_deactivation (name : String) (args : Option JsonValue)
    (s : Sys) (h : is_trace_active s = true) :
    (∃ r, (scoped_then_deactivate name args s).emitted = s.emitted ++ [r] ∧
      r.ph = EventType.Complete ∧ r.dur ≠ none ∧
      (∀ buf, s.tracer = some buf →
        (scoped_then_deactivate name args s).tracer =
          some (buf ++ serializeTraceEvent r ++ ",\n"))) ∧
    (trace_scoped_internal name args (set_trace_state .InActive s)).1 = none := by
  constructor
  · refine ⟨{ name := name, ph := .Complete, ts := s.clock s.clockCalls / 1000,
              pid := s.pidVal, tid := s.tidVal,
              dur := some (s.clock (s.clockCalls + 1) / 1000 -
                s.clock s.clockCalls / 1000), args := args }, ?_, rfl, ?_, ?_⟩
    · simp [scoped_then_deactivate, trace_scoped_internal, h, EventGuard.new,
        TraceEvent.new, precise_time_microsec, process_id, thread_id,
        set_trace_state, EventGuard.drop, trace_emitted]
    · simp
    · intro buf hbuf
      simp [scoped_then_deactivate, trace_scoped_internal, h, EventGuard.new,
        TraceEvent.new, precise_time_microsec, process_id, thread_id,
        set_trace_state, EventGuard.drop, trace, hbuf]
  · simp [trace_scoped_internal, set_trace_state, is_trace_active]

/-- Closed instance of `c9_guard_survives_deactivation` at a concrete active
system with an open trace file. -/
theorem c9_guard_survives_deactivation_witness :
    (∃ r, (scoped_then_deactivate "op" none sysActiveFile).emitted =
        sysActiveFile.emitted ++ [r] ∧
      r.ph = EventType.Complete ∧ r.dur ≠ none ∧
      (∀ buf, sysActiveFile.tracer = some buf →
        (scoped_then_deactivate "op" none sysActiveFile).tracer =
          some (buf ++ serializeTraceEvent r ++ ",\n"))) ∧
    (trace_scoped_internal "op" none (set_trace_state .InActive sysActiveFile)).1 =
      none :=
  c9_guard_survives_deactivation "op" none sysActiveFile (by decide)

/-- Concrete Complete record used in the sink-failure counterexample. -/
def ev6 : TraceEvent :=
  { name := "op", ph := .Complete, ts := 1000, pid := 42, tid := 7,
    dur := some 250, args := none }

/-- C6 counterexample: with an open trace file whose write fails, emitting a
record panics (the source calls `unwrap` on `serde_json::to_writer` and
`write_all`), and with a file whose flush fails, closing the trace file
panics (`unwrap` on `flush`) — the failure does abort the host call, so the
claim that emit and close complete without aborting is false. -/
theorem c6_counterexample :
    trace_fallible (some { buf := "[", writeFails := true, flushFails := false })
      ev6 = RustOutcome.panicked ∧
    close_trace_file_fn (some { buf := "[", writeFails := false, flushFails := true }) =
      RustOutcome.panicked := by
  exact ⟨rfl, rfl⟩

/-- C6 amended: a sink I/O failure is never returned to the caller as an
error value — instead `trace` and `close_trace_file_fn` unwrap the
serialize/write/flush results, so any failing write makes emission panic and
any failing flush makes closing panic, aborting the instrumented call; when
the underlying I/O succeeds (or no trace file is open) both operations
complete normally, emission appending the serialized record plus ",\n". -/
theorem c6_sink_failure_panics (event : TraceEvent) (w : FWriter) :
    (w.writeFails = true → trace_fallible (some w) event = RustOutcome.panicked) ∧
    (w.flushFails = true → close_trace_file_fn (some w) = RustOutcome.panicked) ∧
    (w.writeFails = false → trace_fallible (some w) event =
      RustOutcome.ok (some { w with
        buf := w.buf ++ serializeTraceEvent event ++ ",\n" })) ∧
    (w.flushFails = false → close_trace_file_fn (some w) = RustOutcome.ok none) ∧
    trace_fallible none event = RustOutcome.ok none := by
  refine ⟨?_, ?_, ?_, ?_, rfl⟩
  · intro hw
    simp [trace_fallible, serde_json_to_writer, FWriter.write_all, hw]
  · intro hf
    simp [close_trace_file_fn, FWriter.flush, hf]
  · intro hw
    simp [trace_fallible, serde_json_to_writer, FWriter.write_all, hw,
      String.append_assoc]
  · intro hf
    simp [close_trace_file_fn, FWriter.flush, hf]

/-- Closed instance of `c6_sink_failure_panics`, discharging each of its
fault-flag hypotheses at concrete writers. -/
theorem c6_sink_failure_panics_witness :
    trace_fallible (some { buf := "[", writeFails := true, flushFails := false })
      ev6 = RustOutcome.panicked ∧
    close_trace_file_fn (some { buf := "[", writeFails := true, flushFails := true }) =
      RustOutcome.panicked ∧
    trace_fallible (some { buf := "[", writeFails := false, flushFails := false })
      ev6 = RustOutcome.ok (some
        { buf := "[" ++ serializeTraceEvent ev6 ++ ",\n",
          writeFails := false, flushFails := false }) ∧
    close_trace_file_fn (some { buf := "[", writeFails := false, flushFails := false }) =
      RustOutcome.ok none ∧
    trace_fallible none ev6 = RustOutcome.ok none :=
  ⟨(c6_sink_failure_panics ev6
      { buf := "[", writeFails := true, flushFails := false }).1 rfl,
   (c6_sink_failure_panics ev6
      { buf := "[", writeFails := true, flushFails := true }).2.1 rfl,
   (c6_sink_failure_panics ev6
      { buf := "[", writeFails := false, flushFails := false }).2.2.1 rfl,
   (c6_sink_failure_panics ev6
      { buf := "[", writeFails := false, flushFails := false }).2.2.2.1 rfl,
   (c6_sink_failure_panics ev6
      { buf := "[", writeFails := false, flushFails := false }).2.2.2.2⟩

/-- C7 counterexample: with the gate active and no trace file open, emitting
a begin record leaves standard output without the record's JSON encoding and
",\n" — the code discards the record instead of falling back to a stdout
sink, so the claimed stream-sink behaviour is false. -/
theorem c7_counterexample :
    ¬ ((trace_duration_internal "op" EventType.DurationBegin none
          sysActiveNoFile).stdout =
        sysActiveNoFile.stdout ++
          serializeTraceEvent
            (TraceEvent.new "op" EventType.DurationBegin none sysActiveNoFile).1 ++
          ",\n") := by
  decide

/-- C7 amended: when no file sink has been opened, emitting a record while
the gate is active writes nothing anywhere — standard output is untouched
and the sink handle stays absent; the record is discarded (it is still
handed to `trace`, which ignores it when no file is open). -/
theorem c7_no_file_discards (name : String) (event_type : EventType)
    (args : Option JsonValue) (s : Sys) (hact : is_trace_active s = true)
    (hnone : s.tracer = none) :
    (trace_duration_internal name event_type args s).stdout = s.stdout ∧
    (trace_duration_internal name event_type args s).tracer = none ∧
    ∃ r, (trace_duration_internal name event_type args s).emitted =
      s.emitted ++ [r] := by
  refine ⟨?_, ?_, ?_⟩
  · simp [trace_duration_internal, hact, TraceEvent.new, precise_time_microsec,
      process_id, thread_id, trace_stdout]
  · have h2 : ((TraceEvent.new name event_type args s).2).tracer = none := by
      simp [TraceEvent.new, precise_time_microsec, process_id, thread_id, hnone]
    simp only [trace_duration_internal, hact, if_true]
    exact trace_no_file _ _ h2
  · exact ⟨(TraceEvent.new name event_type args s).1, by
      simp [trace_duration_internal, hact, trace_emitted, TraceEvent.new,
        precise_time_microsec, process_id, thread_id]⟩

/-- Closed instance of `c7_no_file_discards` at a concrete active system with
no trace file open. -/
theorem c7_no_file_discards_witness :
    (trace_duration_internal "op" EventType.DurationBegin none
        sysActiveNoFile).stdout = sysActiveNoFile.stdout ∧
    (trace_duration_internal "op" EventType.DurationBegin none
        sysActiveNoFile).tracer = none ∧
    ∃ r, (trace_duration_internal "op" EventType.DurationBegin none
        sysActiveNoFile).emitted = sysActiveNoFile.emitted ++ [r] :=
  c7_no_file_discards "op" EventType.DurationBegin none sysActiveNoFile
    (by decide) (by decide)

/-- Concrete fault-free world for instantiating the file-sink theorems. -/
def worldNoFaults : World :=
  { fs := { dirs := [], files := [] },
    dirFails := false, fileFails := false, writeFails := false,
    tracerPath := none, tracerBuf := none }

/-- C8: when none of its steps fail, opening the trace file with a directory
path returns Ok, brings every component prefix of the directory into
existence (recursive creation), creates an empty file named `<pid>.trace`
inside the directory, and installs as the process-wide sink a buffered
writer on that file holding the single leading "[" byte. -/
theorem c8_init_success (pid : Nat) (dir : List String) (w : World)
    (hd : w.dirFails = false) (hf : w.fileFails = false)
    (hw : w.writeFails = false) :
    (init_trace_to_file pid dir w).1 = .ok () ∧
    (∀ p ∈ pathInits dir, p ∈ (init_trace_to_file pid dir w).2.fs.dirs) ∧
    (dir ++ [traceFileName pid], "") ∈ (init_trace_to_file pid dir w).2.fs.files ∧
    (init_trace_to_file pid dir w).2.tracerPath = some (dir ++ [traceFileName pid]) ∧
    (init_trace_to_file pid dir w).2.tracerBuf = some "[" := by
  refine ⟨?_, ?_, ?_, ?_, ?_⟩ <;>
    simp [init_trace_to_file, createDirRecursive, createFile, resultAnd, hd, hf, hw]
  exact fun p hp => Or.inl hp

/-- Closed instance of `c8_init_success` at pid 42 and directory tmp/traces
in a fault-free world. -/
theorem c8_init_success_witness :
    (init_trace_to_file 42 ["tmp", "traces"] worldNoFaults).1 = .ok () ∧
    (∀ p ∈ pathInits ["tmp", "traces"],
      p ∈ (init_trace_to_file 42 ["tmp", "traces"] worldNoFaults).2.fs.dirs) ∧
    (["tmp", "traces"] ++ [traceFileName 42], "") ∈
      (init_trace_to_file 42 ["tmp", "traces"] worldNoFaults).2.fs.files ∧
    (init_trace_to_file 42 ["tmp", "traces"] worldNoFaults).2.tracerPath =
      some (["tmp", "traces"] ++ [traceFileName 42]) ∧
    (init_trace_to_file 42 ["tmp", "traces"] worldNoFaults).2.tracerBuf =
      some "[" :=
  c8_init_success 42 ["tmp", "traces"] worldNoFaults rfl rfl rfl

/-- C10: whenever opening the trace file fails — at directory creation, file
creation, or writing the leading "[" — `init_trace_to_file` returns the
I/O error of the first failing step and the process-wide sink handle is left
exactly as it was, so no record can be emitted through a partially
initialized sink. -/
theorem c10_init_failure_preserves_sink (pid : Nat) (dir : List String) (w : World) :
    (∀ e, (init_trace_to_file pid dir w).1 = .error e →
      (init_trace_to_file pid dir w).2.tracerPath = w.tracerPath ∧
      (init_trace_to_file pid dir w).2.tracerBuf = w.tracerBuf) ∧
    (w.dirFails = true →
      (init_trace_to_file pid dir w).1 = .error .dirCreateFailed) ∧
    (w.dirFails = false → w.fileFails = true →
      (init_trace_to_file pid dir w).1 = .error .fileCreateFailed) ∧
    (w.dirFails = false → w.fileFails = false → w.writeFails = true →
      (init_trace_to_file pid dir w).1 = .error .writeFailed) := by
  refine ⟨?_, ?_, ?_, ?_⟩
  · intro e he
    cases hd : w.dirFails <;> cases hf : w.fileFails <;> cases hw : w.writeFails <;>
      simp_all [init_trace_to_file, createDirRecursive, createFile, resultAnd]
  · intro hd
    simp [init_trace_to_file, createDirRecursive, createFile, resultAnd, hd]
  · intro hd hf
    simp [init_trace_to_file, createDirRecursive, createFile, resultAnd, hd, hf]
  · intro hd hf hw
    simp [init_trace_to_file, createDirRecursive, createFile, resultAnd, hd, hf, hw]

/-- Closed instance of `c10_init_failure_preserves_sink` in a world whose
directory creation fails: the error is reported and the absent sink handle
is preserved. -/
theorem c10_init_failure_preserves_sink_witness :
    ((init_trace_to_file 42 ["tmp"] { worldNoFaults with dirFails := true }).2.tracerPath =
        ({ worldNoFaults with dirFails := true } : World).tracerPath ∧
      (init_trace_to_file 42 ["tmp"] { worldNoFaults with dirFails := true }).2.tracerBuf =
        ({ worldNoFaults with dirFails := true } : World).tracerBuf) ∧
    (init_trace_to_file 42 ["tmp"] { worldNoFaults with dirFails := true }).1 =
      .error .dirCreateFailed :=
  ⟨(c10_init_failure_preserves_sink 42 ["tmp"]
      { worldNoFaults with dirFails := true }).1 IoError.dirCreateFailed
      ((c10_init_failure_preserves_sink 42 ["tmp"]
        { worldNoFaults with dirFails := true }).2.1 rfl),
   (c10_init_failure_preserves_sink 42 ["tmp"]
      { worldNoFaults with dirFails := true }).2.1 rfl⟩

end RsTracing
